import Mathlib

/-!
Verification development for the Excel-to-PDF conversion engine
(sop-katalog-basarnas).  The definitions below are shallow embeddings of
the Python source files:

  * excel-mirror-engine/python-engine/engine.py
  * scripts/export_to_pdf_f4.py
  * excel-mirror-engine/windows-com-strict/excel_to_pdf_strict.py
  * excel-mirror-engine/screen-render-preview/excel_screen_render.py
  * excel-mirror-engine/screen-render-preview/excel_screen_render_linux.py

External side effects (the COM automation engine, the filesystem, the
LibreOffice subprocess) are modelled by explicit environments recording
the outcome of each external call; the filesystem is a list of the paths
currently present.
-/

namespace SopKatalog

/-! ## Constants (engine.py lines 53-67) -/

def F4_WIDTH_CM : ℚ := 33
def F4_HEIGHT_CM : ℚ := 215 / 10

def XL_LANDSCAPE : Nat := 2
def XL_PORTRAIT : Nat := 1
def XL_PAPER_FOLIO : Nat := 14
def XL_PAPER_A3 : Nat := 8
def XL_PAPER_A4 : Nat := 9
def XL_PAPER_LETTER : Nat := 1

/-! ## ConversionOptions (engine.py lines 78-105) -/

structure ConversionOptions where
  paper_size : String := "F4"
  orientation : String := "Landscape"
  fit_to_page : Bool := true
  dpi : Nat := 300
  center_horizontally : Bool := true
  margin_cm : ℚ := 1
deriving DecidableEq, Repr

/-! ## Paper-size resolution (engine.py lines 326-336)

`paper_size_map` is the Python dict literal; `dict_get` is the semantics
of Python `dict.get(key, default)` on that association list, and
`resolve_paper_size` is `paper_size_map.get(options.paper_size.upper(),
XL_PAPER_FOLIO)`. -/

/-- Python `str.upper` on one ASCII character. -/
def py_upper_char (c : Char) : Char :=
  if 'a' ≤ c ∧ c ≤ 'z' then Char.ofNat (c.toNat - 32) else c

/-- Python `str.upper` (the tags involved are ASCII). -/
def py_upper (s : String) : String := String.mk (s.data.map py_upper_char)

/-- Python `str.lower` on one ASCII character. -/
def py_lower_char (c : Char) : Char :=
  if 'A' ≤ c ∧ c ≤ 'Z' then Char.ofNat (c.toNat + 32) else c

/-- Python `str.lower` (the tags involved are ASCII). -/
def py_lower (s : String) : String := String.mk (s.data.map py_lower_char)

def paper_size_map : List (String × Nat) :=
  [("F4", XL_PAPER_FOLIO), ("A3", XL_PAPER_A3), ("A4", XL_PAPER_A4),
   ("LETTER", XL_PAPER_LETTER)]

def dict_get (m : List (String × Nat)) (key : String) (dflt : Nat) : Nat :=
  match m.find? (fun p => key = p.1) with
  | some p => p.2
  | none => dflt

def resolve_paper_size (tag : String) : Nat :=
  dict_get paper_size_map (py_upper tag) XL_PAPER_FOLIO

/-! ## PDF page counting (engine.py lines 398-410)

`count_marker` is Python `bytes.count` (non-overlapping, left to right)
specialised to the page marker; the content of the output file is
modelled as a list of characters.  `get_pdf_page_count` takes `none`
when reading the file raised (the bare `except` returns 1). -/

def PAGE_MARKER : List Char := "/Type /Page".data

/-- Non-overlapping left-to-right substring count, the semantics of
Python `bytes.count`: at each match the scan resumes after the matched
occurrence (the `skip` counter carries how many characters of the
current match are still to be passed over). -/
def count_marker_aux (skip : Nat) : List Char → Nat
  | [] => 0
  | c :: rest =>
      match skip with
      | 0 =>
          if PAGE_MARKER.isPrefixOf (c :: rest) then
            1 + count_marker_aux (PAGE_MARKER.length - 1) rest
          else
            count_marker_aux 0 rest
      | k + 1 => count_marker_aux k rest

def count_marker (l : List Char) : Nat := count_marker_aux 0 l

def get_pdf_page_count (content : Option String) : Nat :=
  match content with
  | none => 1
  | some s => max 1 (count_marker s.data - 1)

/-! ## Geometry: scripts/export_to_pdf_f4.py

`PTS_PER_CM` is the literal 28.3464567 from line 40; `RL_CM` and `RL_MM`
are the reportlab units cm = 72/2.54 and mm = 72/25.4 used by
`create_f4_pdf_from_images` and `create_pdf_from_images`. -/

def MARGIN_CM : ℚ := 1
def PTS_PER_CM : ℚ := 283464567 / 10000000
def F4_WIDTH_PTS : ℚ := F4_WIDTH_CM * PTS_PER_CM
def F4_HEIGHT_PTS : ℚ := F4_HEIGHT_CM * PTS_PER_CM

/-- Scale factor computed by `scale_image_to_fit` (export_to_pdf_f4.py
lines 209-225) for a picture of the given width and height in points. -/
def scale_image_to_fit (picWidth picHeight : ℚ) : ℚ :=
  let margin_pts := MARGIN_CM * PTS_PER_CM
  let max_width := F4_WIDTH_PTS - 2 * margin_pts
  let max_height := F4_HEIGHT_PTS - 2 * margin_pts
  let wq := max_width / picWidth
  let hq := max_height / picHeight
  let r := min wq hq
  if r > 1 then 1 else r

def RL_CM : ℚ := 72 / (254 / 100)
def RL_MM : ℚ := 72 / (254 / 10)

/-- Scale factor computed by `create_f4_pdf_from_images`
(export_to_pdf_f4.py lines 253-300) for an image of the given pixel
dimensions. -/
def create_f4_scale (imgWidth imgHeight : ℚ) : ℚ :=
  let f4_width := F4_WIDTH_CM * RL_CM
  let f4_height := F4_HEIGHT_CM * RL_CM
  let margin := MARGIN_CM * RL_CM
  let available_width := f4_width - 2 * margin
  let available_height := f4_height - 2 * margin
  let wq := available_width / imgWidth
  let hq := available_height / imgHeight
  let r := min wq hq
  if r > 1 then 1 else r

/-- Available width in the `scale_image_to_fit` path: page width minus
twice the margin, in points. -/
def availWidthPts : ℚ := F4_WIDTH_PTS - 2 * (MARGIN_CM * PTS_PER_CM)

/-- Available height in the `scale_image_to_fit` path. -/
def availHeightPts : ℚ := F4_HEIGHT_PTS - 2 * (MARGIN_CM * PTS_PER_CM)

/-- Available width in the `create_f4_pdf_from_images` path (reportlab
cm units). -/
def availWidthRL : ℚ := F4_WIDTH_CM * RL_CM - 2 * (MARGIN_CM * RL_CM)

/-- Available height in the `create_f4_pdf_from_images` path. -/
def availHeightRL : ℚ := F4_HEIGHT_CM * RL_CM - 2 * (MARGIN_CM * RL_CM)

/-- reportlab `landscape(A4)` page width (A4 is 210mm x 297mm). -/
def A4_LANDSCAPE_WIDTH : ℚ := 297 * RL_MM

/-- Scale factor computed by `create_pdf_from_images`
(excel_screen_render.py lines 247-302): `scale = page_width / img_width`,
fit-to-width only, with no clamp and no margin. -/
def screen_render_scale (imgWidth : ℚ) : ℚ :=
  A4_LANDSCAPE_WIDTH / imgWidth

/-- Width and height at which `create_pdf_from_images` draws the image
(lines 284-296): `scaled_width = page_width`,
`scaled_height = img_height * scale`. -/
def screen_render_scaled (imgWidth imgHeight : ℚ) : ℚ × ℚ :=
  (A4_LANDSCAPE_WIDTH, imgHeight * screen_render_scale imgWidth)

/-! ## Per-sheet page setup (engine.py lines 299-359)

Each property assignment on `sheet.PageSetup` is one `PSCall`.  The COM
layer may reject any individual assignment; the behaviour of each
assignment is given by an environment `env : Nat → Bool` indexed by call
position (`true` = the assignment succeeds, `false` = it raises).  The
whole body of `_configure_page_setup` sits inside one `try`, so a
raising assignment aborts the remaining assignments of that sheet; the
`PrintArea` assignment (lines 342-347) additionally sits inside its own
inner `try`, so its failure is absorbed locally and the margins are
still applied. -/

inductive PSCall where
  | zoomOff
  | fitPagesWide (n : Nat)
  | fitPagesTallOff
  | orientationSet (v : Nat)
  | paperSizeSet (v : Nat)
  | centerH (b : Bool)
  | printArea
  | leftMargin (q : ℚ)
  | rightMargin (q : ℚ)
  | topMargin (q : ℚ)
  | bottomMargin (q : ℚ)
deriving DecidableEq, Repr

/-- The ordered list of PageSetup assignments attempted by
`_configure_page_setup` (engine.py lines 309-354), as the source writes
them: zoom off first, then the fit-to-width block (only when
`fit_to_page` is set), orientation, paper size, centering, print area,
margins (1 cm = 28.35 points, line 350). -/
def engine_page_setup_calls (opts : ConversionOptions) : List PSCall :=
  let margin_points := opts.margin_cm * (2835 / 100)
  [PSCall.zoomOff]
    ++ (if opts.fit_to_page then [PSCall.fitPagesWide 1, PSCall.fitPagesTallOff] else [])
    ++ [PSCall.orientationSet
          (if py_lower opts.orientation = "landscape" then XL_LANDSCAPE else XL_PORTRAIT),
        PSCall.paperSizeSet (resolve_paper_size opts.paper_size),
        PSCall.centerH opts.center_horizontally,
        PSCall.printArea,
        PSCall.leftMargin margin_points,
        PSCall.rightMargin margin_points,
        PSCall.topMargin margin_points,
        PSCall.bottomMargin margin_points]

/-- Runs a list of PageSetup assignments under the outcome environment.
Returns the assignments that were applied, in order, together with the
pending error (`some msg`) when a non-`printArea` assignment raised and
aborted the rest of the body. -/
def run_page_setup (env : Nat → Bool) : Nat → List PSCall → List PSCall × Option String
  | _, [] => ([], none)
  | k, c :: cs =>
      if env k then
        let t := run_page_setup env (k + 1) cs
        (c :: t.1, t.2)
      else if c = PSCall.printArea then
        run_page_setup env (k + 1) cs
      else
        ([], some "PageSetup assignment raised")

/-- `ExcelMirrorEngine._configure_page_setup` (engine.py lines 299-359):
the whole body is wrapped in `try ... except` whose handler only prints
a warning, so the function returns normally whatever the COM layer does;
the value is the trace of applied assignments. -/
def configure_page_setup (env : Nat → Bool) (opts : ConversionOptions) : List PSCall :=
  (run_page_setup env 0 (engine_page_setup_calls opts)).1

/-- Whether `_configure_page_setup` swallowed an error for this sheet. -/
def configure_page_setup_absorbed (env : Nat → Bool) (opts : ConversionOptions) : Bool :=
  (run_page_setup env 0 (engine_page_setup_calls opts)).2.isSome

/-! ## The strict converter (excel_to_pdf_strict.py lines 109-144)

Same call model for the per-sheet page setup of
`convert_excel_to_pdf_strict`: zoom disabled (line 113) strictly before
`FitToPagesWide` (line 117); orientation, centering, margins
(`CentimetersToPoints(1)`), then the print area inside its own `try`. -/

def strict_page_setup_calls : List PSCall :=
  let cm_points : ℚ := 2835 / 100
  [PSCall.zoomOff,
   PSCall.fitPagesWide 1,
   PSCall.fitPagesTallOff,
   PSCall.orientationSet XL_LANDSCAPE,
   PSCall.centerH true,
   PSCall.leftMargin cm_points,
   PSCall.rightMargin cm_points,
   PSCall.topMargin cm_points,
   PSCall.bottomMargin cm_points,
   PSCall.printArea]

/-- Trace of PageSetup assignments applied to one sheet by
`convert_excel_to_pdf_strict`.  The per-sheet body has no catch of its
own apart from the `PrintArea` inner `try`, so a raising assignment
aborts this trace (and, in the source, the whole conversion). -/
def strict_page_setup_trace (env : Nat → Bool) : List PSCall :=
  (run_page_setup env 0 strict_page_setup_calls).1

/-! ## `_convert_with_com` (engine.py lines 215-297)

Abstracted over the outcome of the external COM calls: whether the
workbook opens, the per-sheet PageSetup outcome environments (one per
worksheet), and whether `ExportAsFixedFormat` succeeds.  Every
per-sheet configuration runs through `configure_page_setup`; the
function returns `true` exactly when open and export both succeed. -/

def convert_with_com (openOk : Bool) (sheetEnvs : List (Nat → Bool))
    (exportOk : Bool) (opts : ConversionOptions) : Bool × List (List PSCall) :=
  if openOk then
    let traces := sheetEnvs.map (fun env => configure_page_setup env opts)
    if exportOk then (true, traces) else (false, traces)
  else
    (false, [])

/-! ## The orchestrator `convert_to_pdf` (engine.py lines 126-213)

The filesystem is the list of paths currently present.  The outcome of
the conversion stage (`_convert_with_com` or `_simulate_conversion`) is
an environment value: either the stage raised an exception with a
message, or it returned a boolean and did or did not create the output
file.  `pdfData` is the content of the output file when it was created;
`elapsedMs` stands for the wall-clock measurements. -/

inductive ConvAttempt where
  | raised (msg : String)
  | returned (success : Bool) (outputCreated : Bool)
deriving DecidableEq, Repr

structure ConvertEnv where
  attempt : ConvAttempt
  pdfData : String
  elapsedMs : Nat
deriving DecidableEq, Repr

/-- The structured result dict built by `convert_to_pdf`.  `pdfBase64`
holds the output bytes (the base64 transport encoding of line 195 is an
injective re-encoding and is elided). -/
structure ConvResult where
  success : Bool
  error : Option String := none
  pdfBase64 : Option String := none
  pdfSize : Option Nat := none
  pageCount : Option Nat := none
  pageSize : Option String := none
  processingTimeMs : Nat
deriving DecidableEq, Repr

/-- Python sanitisation of the file name (engine.py line 153):
every character that is not alphanumeric and not in `._-` becomes `_`. -/
def safe_name (fileName : String) : String :=
  String.mk (fileName.data.map
    (fun c => if c.isAlphanum ∨ c = '.' ∨ c = '_' ∨ c = '-' then c else '_'))

/-- Job-scoped temporary input path (engine.py line 156). -/
def input_path (tempDir jobId fileName : String) : String :=
  tempDir ++ "/" ++ jobId ++ "_" ++ safe_name fileName

/-- Job-scoped temporary output path (engine.py line 157). -/
def output_path (tempDir jobId : String) : String :=
  tempDir ++ "/" ++ jobId ++ "_output.pdf"

/-- `ExcelMirrorEngine._cleanup_files` (engine.py lines 412-419):
removes each of the given paths when present, swallowing errors. -/
def cleanup_files (paths : List String) (fs : List String) : List String :=
  fs.filter (fun p => ¬ p ∈ paths)

/-- `ExcelMirrorEngine.convert_to_pdf` (engine.py lines 126-213), one
call, after the semaphore has been acquired.  Steps in source order:
write the input bytes to `input_path`; run the conversion stage (its
outcome is `env.attempt`, and when it created the output file that file
appears on the filesystem with content `env.pdfData`); if the stage
returned false or the output file does not exist, return the failure
dict (lines 172-177); otherwise read the output, estimate the page
count, call `_cleanup_files(input_path, output_path)` and return the
success dict (lines 179-200).  An exception raised by the stage is
caught by the `except` handler (lines 202-210), which returns the
failure dict with the message; the `finally` block only forces garbage
collection.  Returns the result together with the filesystem as left
behind. -/
def convert_to_pdf (env : ConvertEnv) (tempDir jobId fileName : String)
    (opts : ConversionOptions) (fs0 : List String) : ConvResult × List String :=
  let inp := input_path tempDir jobId fileName
  let outp := output_path tempDir jobId
  let fs1 := fs0 ++ [inp]
  match env.attempt with
  | ConvAttempt.raised msg =>
      ({ success := false, error := some msg, processingTimeMs := env.elapsedMs }, fs1)
  | ConvAttempt.returned succ outputCreated =>
      let fs2 := if outputCreated then fs1 ++ [outp] else fs1
      if ¬ succ ∨ ¬ outp ∈ fs2 then
        ({ success := false, error := some "PDF conversion failed",
           processingTimeMs := env.elapsedMs }, fs2)
      else
        let pdf_data := env.pdfData
        let page_count := get_pdf_page_count (some pdf_data)
        let fs3 := cleanup_files [inp, outp] fs2
        ({ success := true,
           pdfBase64 := some pdf_data,
           pdfSize := some pdf_data.length,
           pageCount := some page_count,
           pageSize := some (opts.paper_size ++ " " ++ opts.orientation),
           processingTimeMs := env.elapsedMs }, fs3)

/-! ## The headless-converter fallback

`_simulate_conversion` (engine.py lines 361-396) runs
`subprocess.run([libreoffice, ...], timeout=120)`; `TimeoutExpired`, a
missing binary, or any other exception is caught by the
`except Exception` handler (line 393) which prints and falls through to
`return False`; on normal completion the generated PDF is moved to the
output path when it exists. -/

inductive SubprocOutcome where
  | completed (generatedPdf : Bool)
  | timedOut
  | launchFailed (msg : String)
deriving DecidableEq, Repr

/-- Wall-clock timeout passed to `subprocess.run` in
`_simulate_conversion` (engine.py line 383). -/
def simulate_timeout_seconds : Nat := 120

/-- `ExcelMirrorEngine._simulate_conversion` outcome: `true` iff the
subprocess completed within the timeout and its generated PDF was found
and moved to the output path. -/
def simulate_conversion (o : SubprocOutcome) : Bool :=
  match o with
  | SubprocOutcome.completed generatedPdf => generatedPdf
  | SubprocOutcome.timedOut => false
  | SubprocOutcome.launchFailed _ => false

/-- `convert_to_pdf` on the non-Windows path (engine.py line 170),
where the conversion stage is `_simulate_conversion`: the stage returns
`simulate_conversion o`, and the output file exists exactly when the
generated PDF was moved into place, i.e. on the same condition. -/
def convert_via_simulate (o : SubprocOutcome) (pdfData : String) (ms : Nat)
    (tempDir jobId fileName : String) (opts : ConversionOptions)
    (fs0 : List String) : ConvResult × List String :=
  convert_to_pdf
    { attempt := ConvAttempt.returned (simulate_conversion o) (simulate_conversion o),
      pdfData := pdfData, elapsedMs := ms }
    tempDir jobId fileName opts fs0

/-- Wall-clock timeout passed to `subprocess.run` in
`convert_excel_screen_render` (excel_screen_render_linux.py line 46). -/
def linux_timeout_seconds : Nat := 180

/-- `convert_excel_screen_render` (excel_screen_render_linux.py lines
19-82): runs LibreOffice under the timeout; returns `true` iff the
generated PDF exists and was copied to the output path; the `except`
handler (line 77) catches `TimeoutExpired` and everything else and
returns `false`. -/
def convert_excel_screen_render (o : SubprocOutcome) : Bool :=
  match o with
  | SubprocOutcome.completed generatedPdf => generatedPdf
  | SubprocOutcome.timedOut => false
  | SubprocOutcome.launchFailed _ => false

/-! ## Bounding region with shapes (export_to_pdf_f4.py lines 153-177)

A worksheet is its cell used range (the COM `UsedRange`, `none` when
falsy) and the anchor cells of its floating shapes.  Row and column
indices are one-based, as in the COM object model. -/

structure UsedRange where
  row : Nat
  col : Nat
  rowsCount : Nat
  colsCount : Nat
deriving DecidableEq, Repr

structure ShapeAnchor where
  tlRow : Nat
  tlCol : Nat
  brRow : Nat
  brCol : Nat
deriving DecidableEq, Repr

structure Worksheet where
  usedRange : Option UsedRange
  shapes : List ShapeAnchor
deriving DecidableEq, Repr

/-- A rectangular cell region, rows `minRow..maxRow` and columns
`minCol..maxCol`. -/
structure Rect where
  minRow : Nat
  minCol : Nat
  maxRow : Nat
  maxCol : Nat
deriving DecidableEq, Repr

/-- Accumulator state of `get_used_range_with_shapes`:
`(min_row, min_col, max_row, max_col)`. -/
def grws_init : Nat × Nat × Nat × Nat := (1000000, 1000000, 1, 1)

/-- The used-range step (export_to_pdf_f4.py lines 161-166). -/
def grws_used (s : Nat × Nat × Nat × Nat) (u : UsedRange) : Nat × Nat × Nat × Nat :=
  (min s.1 u.row, min s.2.1 u.col,
   max s.2.2.1 (u.row + u.rowsCount - 1), max s.2.2.2 (u.col + u.colsCount - 1))

/-- The per-shape step (export_to_pdf_f4.py lines 169-173). -/
def grws_shape (s : Nat × Nat × Nat × Nat) (sh : ShapeAnchor) : Nat × Nat × Nat × Nat :=
  (min s.1 sh.tlRow, min s.2.1 sh.tlCol, max s.2.2.1 sh.brRow, max s.2.2.2 sh.brCol)

/-- `get_used_range_with_shapes` (export_to_pdf_f4.py lines 153-177):
start from the sentinel accumulator, fold in the cell used range when
present, fold in every shape anchor, and return the rectangle when
`max_row >= min_row and max_col >= min_col`, else `None`. -/
def get_used_range_with_shapes (ws : Worksheet) : Option Rect :=
  let s0 := grws_init
  let s1 := match ws.usedRange with
    | none => s0
    | some u => grws_used s0 u
  let s2 := ws.shapes.foldl grws_shape s1
  if s2.2.2.1 ≥ s2.1 ∧ s2.2.2.2 ≥ s2.2.1 then
    some { minRow := s2.1, minCol := s2.2.1, maxRow := s2.2.2.1, maxCol := s2.2.2.2 }
  else
    none

/-- Modelled from the spec (glossary, "Used content region"): the
minimal rectangular cell range containing all cells of the used range
plus the anchor cells (top-left through bottom-right) of every floating
shape; no region when the sheet has neither a used range nor shapes.
This is the spec-side definition the code is compared against. -/
def spec_bounding_region (ws : Worksheet) : Option Rect :=
  match ws.usedRange with
  | some u =>
      some { minRow := (ws.shapes.map ShapeAnchor.tlRow).foldl min u.row,
             minCol := (ws.shapes.map ShapeAnchor.tlCol).foldl min u.col,
             maxRow := (ws.shapes.map ShapeAnchor.brRow).foldl max
                 (u.row + u.rowsCount - 1),
             maxCol := (ws.shapes.map ShapeAnchor.brCol).foldl max
                 (u.col + u.colsCount - 1) }
  | none =>
      match ws.shapes with
      | [] => none
      | sh :: rest =>
          some { minRow := (rest.map ShapeAnchor.tlRow).foldl min sh.tlRow,
                 minCol := (rest.map ShapeAnchor.tlCol).foldl min sh.tlCol,
                 maxRow := (rest.map ShapeAnchor.brRow).foldl max sh.brRow,
                 maxCol := (rest.map ShapeAnchor.brCol).foldl max sh.brCol }

/-- Well-formedness of a used range as the COM object model guarantees
it (one-based coordinates, at least one row and one column), together
with the bound that it stays within the first 1000000 rows and columns
(the sentinel value used by `get_used_range_with_shapes`). -/
def used_range_ok (o : Option UsedRange) : Bool :=
  match o with
  | none => true
  | some u =>
      decide (1 ≤ u.row) && decide (1 ≤ u.col) &&
      decide (1 ≤ u.rowsCount) && decide (1 ≤ u.colsCount) &&
      decide (u.row + u.rowsCount - 1 ≤ 1000000) &&
      decide (u.col + u.colsCount - 1 ≤ 1000000)

/-- Well-formedness of one shape anchor: one-based, top-left before
bottom-right, within the sentinel bound. -/
def shape_ok (sh : ShapeAnchor) : Bool :=
  decide (1 ≤ sh.tlRow) && decide (sh.tlRow ≤ sh.brRow) &&
  decide (sh.brRow ≤ 1000000) &&
  decide (1 ≤ sh.tlCol) && decide (sh.tlCol ≤ sh.brCol) &&
  decide (sh.brCol ≤ 1000000)

/-- The worksheet lies entirely within the first 1000000 rows and
columns. -/
def worksheet_in_bounds (ws : Worksheet) : Bool :=
  used_range_ok ws.usedRange && ws.shapes.all shape_ok

/-- The per-sheet loop of `export_with_excel_com` (export_to_pdf_f4.py
lines 94-127): a visible worksheet is exported to a temporary per-sheet
PDF only when `get_used_range_with_shapes` returned a region; a
worksheet with no region is skipped.  Returns the indices of the sheets
that produced a per-sheet PDF, in document order. -/
def export_sheet_indices (sheets : List (Bool × Worksheet)) : List Nat :=
  (sheets.enum.filterMap
    (fun p =>
      if p.2.1 ∧ (get_used_range_with_shapes p.2.2).isSome then
        some p.1
      else
        none))

/-! ## Single-permit mutual exclusion (engine.py lines 120-124, 146-147)

`ExcelMirrorEngine.__init__` creates `threading.Semaphore(1)`;
`convert_to_pdf` executes its whole body inside `with self.semaphore`.
Two concurrent `convert_to_pdf` calls on the same engine are modelled
as an interleaving transition system: each job acquires the permit,
then opens the automation session, closes it, runs the job cleanup, and
only then releases the permit (leaving the `with` block). -/

inductive JobPhase where
  | idle
  | acquired
  | sessionOpen
  | sessionClosed
  | cleanedUp
  | done
deriving DecidableEq, Repr

/-- A job holds the single permit from acquisition until release. -/
def holdsPermit : JobPhase → Bool
  | JobPhase.idle => false
  | JobPhase.acquired => true
  | JobPhase.sessionOpen => true
  | JobPhase.sessionClosed => true
  | JobPhase.cleanedUp => true
  | JobPhase.done => false

/-- A job is in its automation phase while the session is open. -/
def inAutomationPhase : JobPhase → Bool
  | JobPhase.sessionOpen => true
  | _ => false

structure EngineState where
  permitFree : Bool
  jobA : JobPhase
  jobB : JobPhase
deriving DecidableEq, Repr

/-- Interleaved steps of two `convert_to_pdf` calls.  Acquiring requires
the permit to be free and takes it; every later step of the same job
happens while the job holds the permit; release happens only after the
session has been closed and the cleanup has run. -/
inductive EngineStep : EngineState → EngineState → Prop where
  | acquireA (q : JobPhase) :
      EngineStep ⟨true, JobPhase.idle, q⟩ ⟨false, JobPhase.acquired, q⟩
  | openA (p : Bool) (q : JobPhase) :
      EngineStep ⟨p, JobPhase.acquired, q⟩ ⟨p, JobPhase.sessionOpen, q⟩
  | closeA (p : Bool) (q : JobPhase) :
      EngineStep ⟨p, JobPhase.sessionOpen, q⟩ ⟨p, JobPhase.sessionClosed, q⟩
  | cleanupA (p : Bool) (q : JobPhase) :
      EngineStep ⟨p, JobPhase.sessionClosed, q⟩ ⟨p, JobPhase.cleanedUp, q⟩
  | releaseA (p : Bool) (q : JobPhase) :
      EngineStep ⟨p, JobPhase.cleanedUp, q⟩ ⟨true, JobPhase.done, q⟩
  | acquireB (q : JobPhase) :
      EngineStep ⟨true, q, JobPhase.idle⟩ ⟨false, q, JobPhase.acquired⟩
  | openB (p : Bool) (q : JobPhase) :
      EngineStep ⟨p, q, JobPhase.acquired⟩ ⟨p, q, JobPhase.sessionOpen⟩
  | closeB (p : Bool) (q : JobPhase) :
      EngineStep ⟨p, q, JobPhase.sessionOpen⟩ ⟨p, q, JobPhase.sessionClosed⟩
  | cleanupB (p : Bool) (q : JobPhase) :
      EngineStep ⟨p, q, JobPhase.sessionClosed⟩ ⟨p, q, JobPhase.cleanedUp⟩
  | releaseB (p : Bool) (q : JobPhase) :
      EngineStep ⟨p, q, JobPhase.cleanedUp⟩ ⟨true, q, JobPhase.done⟩

/-- Both jobs start idle, the permit free. -/
def engineInit : EngineState := ⟨true, JobPhase.idle, JobPhase.idle⟩

def EngineReachable (s : EngineState) : Prop :=
  Relation.ReflTransGen EngineStep engineInit s

/-- Inductive invariant: when the permit is free no job holds it, and
the two jobs never hold it simultaneously. -/
def MutexInv (s : EngineState) : Prop :=
  (s.permitFree = true → holdsPermit s.jobA = false ∧ holdsPermit s.jobB = false) ∧
  ¬ (holdsPermit s.jobA = true ∧ holdsPermit s.jobB = true)

instance (s : EngineState) : Decidable (MutexInv s) := by
  unfold MutexInv
  infer_instance

/-! # Theorems -/

/-! ## Shared helper lemmas -/

lemma clamp_eq_min (r : ℚ) : (if r > 1 then 1 else r) = min r 1 := by
  rcases le_or_lt r 1 with hr | hr
  · rw [if_neg (not_lt.mpr hr), min_eq_left hr]
  · rw [if_pos hr, min_eq_right hr.le]

/-! ## C7: unknown paper-size tags fall back to F4/Folio -/

/-- C7: for every paper-size tag, `paper_size_map.get(tag.upper(),
XL_PAPER_FOLIO)` selects the renderer constant of the recognized tag
(F4, A3, A4, LETTER, case-insensitively) and falls back to the default
F4/Folio constant on every unrecognized tag, without raising. -/
theorem paper_size_fallback (s : String) :
    resolve_paper_size s =
      if py_upper s = "F4" then XL_PAPER_FOLIO
      else if py_upper s = "A3" then XL_PAPER_A3
      else if py_upper s = "A4" then XL_PAPER_A4
      else if py_upper s = "LETTER" then XL_PAPER_LETTER
      else XL_PAPER_FOLIO := by
  unfold resolve_paper_size dict_get paper_size_map
  by_cases h1 : py_upper s = "F4" <;> by_cases h2 : py_upper s = "A3" <;>
    by_cases h3 : py_upper s = "A4" <;> by_cases h4 : py_upper s = "LETTER" <;>
    simp [List.find?, h1, h2, h3, h4]

/-! ## C2: geometry scale factors -/

/-- C2 counterexample: the screen-render composite path
(`create_pdf_from_images`) scales a captured image to the page width
with no clamp: a 100-pixel-wide image gets scale factor around 8.4 and
is drawn wider than its source, so the claim that every assembly path
computes the clamped min-expression and never upscales is false. -/
theorem screen_render_upscale_counterexample :
    screen_render_scale 100 > 1 ∧ (screen_render_scaled 100 50).1 > 100 := by
  constructor
  · norm_num [screen_render_scale, A4_LANDSCAPE_WIDTH, RL_MM]
  · norm_num [screen_render_scaled, A4_LANDSCAPE_WIDTH, RL_MM]

/-- C2 amended: the two F4 assembly paths (`scale_image_to_fit` and
`create_f4_pdf_from_images`) compute the uniform scale factor
min(availableWidth / sourceWidth, availableHeight / sourceHeight) with
available dimension = page dimension minus twice the margin, clamped to
at most 1, hence positive and never upscaling; the screen-render
composite path does not follow this rule. -/
theorem f4_scale_clamped_min (w h : ℚ) (hw : 0 < w) (hh : 0 < h) :
    scale_image_to_fit w h = min (min (availWidthPts / w) (availHeightPts / h)) 1 ∧
    0 < scale_image_to_fit w h ∧ scale_image_to_fit w h ≤ 1 ∧
    create_f4_scale w h = min (min (availWidthRL / w) (availHeightRL / h)) 1 ∧
    0 < create_f4_scale w h ∧ create_f4_scale w h ≤ 1 := by
  have hW : (0:ℚ) < availWidthPts := by
    norm_num [availWidthPts, F4_WIDTH_PTS, F4_WIDTH_CM, MARGIN_CM, PTS_PER_CM]
  have hH : (0:ℚ) < availHeightPts := by
    norm_num [availHeightPts, F4_HEIGHT_PTS, F4_HEIGHT_CM, MARGIN_CM, PTS_PER_CM]
  have hWR : (0:ℚ) < availWidthRL := by
    norm_num [availWidthRL, F4_WIDTH_CM, MARGIN_CM, RL_CM]
  have hHR : (0:ℚ) < availHeightRL := by
    norm_num [availHeightRL, F4_HEIGHT_CM, MARGIN_CM, RL_CM]
  have e1 : scale_image_to_fit w h
      = min (min (availWidthPts / w) (availHeightPts / h)) 1 := by
    simp only [scale_image_to_fit, clamp_eq_min, availWidthPts, availHeightPts]
  have e2 : create_f4_scale w h
      = min (min (availWidthRL / w) (availHeightRL / h)) 1 := by
    simp only [create_f4_scale, clamp_eq_min, availWidthRL, availHeightRL]
  refine ⟨e1, ?_, ?_, e2, ?_, ?_⟩
  · rw [e1]
    exact lt_min (lt_min (div_pos hW hw) (div_pos hH hh)) one_pos
  · rw [e1]; exact min_le_right _ _
  · rw [e2]
    exact lt_min (lt_min (div_pos hWR hw) (div_pos hHR hh)) one_pos
  · rw [e2]; exact min_le_right _ _

/-- C2 witness: the amended statement at a concrete 1000 x 1000 source. -/
theorem f4_scale_clamped_min_witness :
    (0:ℚ) < 1000 ∧
    (scale_image_to_fit 1000 1000
        = min (min (availWidthPts / 1000) (availHeightPts / 1000)) 1 ∧
      0 < scale_image_to_fit 1000 1000 ∧ scale_image_to_fit 1000 1000 ≤ 1 ∧
      create_f4_scale 1000 1000
        = min (min (availWidthRL / 1000) (availHeightRL / 1000)) 1 ∧
      0 < create_f4_scale 1000 1000 ∧ create_f4_scale 1000 1000 ≤ 1) :=
  ⟨by norm_num, f4_scale_clamped_min 1000 1000 (by norm_num) (by norm_num)⟩

/-! ## C10: page-count estimate is at least 1 -/

/-- C10: every page count reported by a `convert_to_pdf` result is at
least 1: the estimator returns `max(1, marker occurrences - 1)` on a
readable file and 1 when reading raised, so no successful result ever
reports 0 or a negative page count (a failure result carries no page
count at all). -/
theorem page_count_at_least_one (env : ConvertEnv) (tempDir jobId fileName : String)
    (opts : ConversionOptions) (fs0 : List String) (n : Nat)
    (h : ((convert_to_pdf env tempDir jobId fileName opts fs0).1).pageCount = some n) :
    1 ≤ n := by
  rcases hA : env.attempt with msg | ⟨succ, created⟩ <;>
    simp only [convert_to_pdf, hA] at h
  · simp at h
  · split at h
    all_goals try split at h
    all_goals simp at h
    all_goals subst h
    all_goals unfold get_pdf_page_count
    all_goals exact le_max_left _ _

/-- C10 witness: a successful conversion of an empty output file
reports page count 1. -/
theorem page_count_at_least_one_witness :
    ((convert_to_pdf ⟨ConvAttempt.returned true true, "", 4⟩
        "tmp" "j5" "e.xlsx" {} []).1).pageCount = some 1 ∧ 1 ≤ 1 :=
  ⟨by decide,
    page_count_at_least_one ⟨ConvAttempt.returned true true, "", 4⟩
      "tmp" "j5" "e.xlsx" {} [] 1 (by decide)⟩

/-! ## C9: headless-converter timeout handling -/

/-- C9 counterexample: when the headless converter exceeds its timeout,
`convert_to_pdf` returns exactly the same result as when the converter
binary is missing — the generic "PDF conversion failed" description —
so the failure is not classified as a timeout error. -/
theorem timeout_error_not_classified :
    convert_via_simulate SubprocOutcome.timedOut "" 9 "tmp" "j4" "d.xlsx" {} []
      = convert_via_simulate (SubprocOutcome.launchFailed "libreoffice missing")
          "" 9 "tmp" "j4" "d.xlsx" {} [] ∧
    (convert_via_simulate SubprocOutcome.timedOut "" 9 "tmp" "j4" "d.xlsx" {} []).1.error
      = some "PDF conversion failed" := by decide

/-- C9 amended: the headless fallback runs the converter subprocess
under a wall-clock timeout (120 s in the engine, 180 s in the Linux
screen-render script), and a timeout yields a failure result — not a
hang and not success — but the failure carries the generic conversion
failure description, not a timeout-specific classification. -/
theorem headless_timeout_bounded_failure (pdfData : String) (ms : Nat)
    (tempDir jobId fileName : String) (opts : ConversionOptions) (fs0 : List String) :
    simulate_timeout_seconds = 120 ∧ linux_timeout_seconds = 180 ∧
    simulate_conversion SubprocOutcome.timedOut = false ∧
    convert_excel_screen_render SubprocOutcome.timedOut = false ∧
    (convert_via_simulate SubprocOutcome.timedOut pdfData ms
        tempDir jobId fileName opts fs0).1.success = false ∧
    (convert_via_simulate SubprocOutcome.timedOut pdfData ms
        tempDir jobId fileName opts fs0).1.error = some "PDF conversion failed" := by
  refine ⟨rfl, rfl, rfl, rfl, ?_, ?_⟩ <;>
    simp [convert_via_simulate, convert_to_pdf, simulate_conversion]

/-! ## C8: the page-size label of a successful result -/

/-- C8 counterexample: with paper-size tag "B5" the configuration step
resolves the renderer constant to F4/Folio (the fallback), but the
label of the success result is "B5 Landscape", the raw option tag — not the
resolved paper size. -/
theorem page_size_label_not_resolved :
    (convert_to_pdf ⟨ConvAttempt.returned true true, "", 2⟩ "tmp" "j3" "c.xlsx"
        { paper_size := "B5" } []).1.pageSize = some "B5 Landscape" ∧
    resolve_paper_size "B5" = XL_PAPER_FOLIO ∧
    some "B5 Landscape" ≠ some ("F4" ++ " " ++ "Landscape") := by decide

/-- C8 amended: every successful result carries the label
"paperSize orientation" built from the options as given (the raw tag,
not the post-fallback resolution), together with the output bytes, the
byte size, the page-count estimate and the elapsed milliseconds; with
default options the label is "F4 Landscape". -/
theorem success_result_fields (env : ConvertEnv) (tempDir jobId fileName : String)
    (opts : ConversionOptions) (fs0 : List String)
    (h : env.attempt = ConvAttempt.returned true true) :
    ((convert_to_pdf env tempDir jobId fileName opts fs0).1).success = true ∧
    ((convert_to_pdf env tempDir jobId fileName opts fs0).1).pageSize
        = some (opts.paper_size ++ " " ++ opts.orientation) ∧
    ((convert_to_pdf env tempDir jobId fileName opts fs0).1).pdfBase64 = some env.pdfData ∧
    ((convert_to_pdf env tempDir jobId fileName opts fs0).1).pdfSize
        = some env.pdfData.length ∧
    ((convert_to_pdf env tempDir jobId fileName opts fs0).1).pageCount
        = some (get_pdf_page_count (some env.pdfData)) ∧
    ((convert_to_pdf env tempDir jobId fileName opts fs0).1).processingTimeMs
        = env.elapsedMs ∧
    ({} : ConversionOptions).paper_size ++ " " ++ ({} : ConversionOptions).orientation
        = "F4 Landscape" := by
  unfold convert_to_pdf
  rw [h]
  have hmem : output_path tempDir jobId
      ∈ ((fs0 ++ [input_path tempDir jobId fileName]) ++ [output_path tempDir jobId]) := by
    simp
  simp [hmem]
  decide

/-- C8 witness: a successful conversion under default options carries
the "F4 Landscape" label and the remaining fields. -/
theorem success_result_fields_witness :
    (⟨ConvAttempt.returned true true, "data", 6⟩ : ConvertEnv).attempt
        = ConvAttempt.returned true true ∧
    (((convert_to_pdf ⟨ConvAttempt.returned true true, "data", 6⟩
          "tmp" "j6" "f.xlsx" {} []).1).success = true ∧
      ((convert_to_pdf ⟨ConvAttempt.returned true true, "data", 6⟩
          "tmp" "j6" "f.xlsx" {} []).1).pageSize
          = some (({} : ConversionOptions).paper_size ++ " "
              ++ ({} : ConversionOptions).orientation) ∧
      ((convert_to_pdf ⟨ConvAttempt.returned true true, "data", 6⟩
          "tmp" "j6" "f.xlsx" {} []).1).pdfBase64 = some "data" ∧
      ((convert_to_pdf ⟨ConvAttempt.returned true true, "data", 6⟩
          "tmp" "j6" "f.xlsx" {} []).1).pdfSize = some ("data" : String).length ∧
      ((convert_to_pdf ⟨ConvAttempt.returned true true, "data", 6⟩
          "tmp" "j6" "f.xlsx" {} []).1).pageCount
          = some (get_pdf_page_count (some "data")) ∧
      ((convert_to_pdf ⟨ConvAttempt.returned true true, "data", 6⟩
          "tmp" "j6" "f.xlsx" {} []).1).processingTimeMs = 6 ∧
      ({} : ConversionOptions).paper_size ++ " " ++ ({} : ConversionOptions).orientation
          = "F4 Landscape") :=
  ⟨rfl, success_result_fields _ "tmp" "j6" "f.xlsx" {} [] rfl⟩

/-! ## C1: temp-file cleanup on exit paths of convert_to_pdf -/

/-- C1 counterexample: on the conversion-failure exit path the
job-scoped temporary input file is still present in the workspace after
the call returns, so the cleanup is not unconditional; the call does
return a structured failure result. -/
theorem failure_leaves_temp_input :
    input_path "tmp" "job1" "a.xlsx"
        ∈ (convert_to_pdf ⟨ConvAttempt.returned false false, "", 7⟩
            "tmp" "job1" "a.xlsx" {} []).2 ∧
    (convert_to_pdf ⟨ConvAttempt.returned false false, "", 7⟩
        "tmp" "job1" "a.xlsx" {} []).1.success = false ∧
    (convert_to_pdf ⟨ConvAttempt.returned false false, "", 7⟩
        "tmp" "job1" "a.xlsx" {} []).1.error = some "PDF conversion failed" := by decide

/-- C1 amended: the job-scoped temporary input and output files are
removed before the call returns on the success path only; on a
conversion failure or an exception the temp files remain in the
workspace (they are removed only by the engine-shutdown cleanup).  On
every exit path the call returns a structured result rather than
propagating an unhandled fault. -/
theorem success_cleans_temp_files (env : ConvertEnv) (tempDir jobId fileName : String)
    (opts : ConversionOptions) (fs0 : List String)
    (h : env.attempt = ConvAttempt.returned true true) :
    ((convert_to_pdf env tempDir jobId fileName opts fs0).1).success = true ∧
    input_path tempDir jobId fileName
        ∉ (convert_to_pdf env tempDir jobId fileName opts fs0).2 ∧
    output_path tempDir jobId
        ∉ (convert_to_pdf env tempDir jobId fileName opts fs0).2 := by
  unfold convert_to_pdf
  rw [h]
  have hmem : output_path tempDir jobId
      ∈ ((fs0 ++ [input_path tempDir jobId fileName]) ++ [output_path tempDir jobId]) := by
    simp
  simp [hmem, cleanup_files, List.mem_filter]

/-- C1 witness: a concrete successful conversion leaves neither temp
file behind. -/
theorem success_cleans_temp_files_witness :
    (⟨ConvAttempt.returned true true, "d", 3⟩ : ConvertEnv).attempt
        = ConvAttempt.returned true true ∧
    (((convert_to_pdf ⟨ConvAttempt.returned true true, "d", 3⟩
          "tmp" "j2" "b.xlsx" {} []).1).success = true ∧
      input_path "tmp" "j2" "b.xlsx"
          ∉ (convert_to_pdf ⟨ConvAttempt.returned true true, "d", 3⟩
              "tmp" "j2" "b.xlsx" {} []).2 ∧
      output_path "tmp" "j2"
          ∉ (convert_to_pdf ⟨ConvAttempt.returned true true, "d", 3⟩
              "tmp" "j2" "b.xlsx" {} []).2) :=
  ⟨rfl, success_cleans_temp_files _ "tmp" "j2" "b.xlsx" {} [] rfl⟩

/-! ## C5: per-sheet page-setup failures are absorbed -/

/-- C5: `_configure_page_setup` never surfaces a failure: a per-sheet
PageSetup failure is absorbed (even an environment rejecting the very
first assignment leaves the function returning normally with the error
swallowed), every sheet of the workbook is still configured (one trace
per sheet), and the job outcome of `_convert_with_com` depends only on
the open and export outcomes, never on the per-sheet environments. -/
theorem page_setup_failure_absorbed (openOk : Bool) (sheetEnvs : List (Nat → Bool))
    (exportOk : Bool) (opts : ConversionOptions) :
    ((convert_with_com openOk sheetEnvs exportOk opts).2).length
        = (if openOk then sheetEnvs.length else 0) ∧
    (convert_with_com openOk sheetEnvs exportOk opts).1 = (openOk && exportOk) ∧
    configure_page_setup_absorbed (fun _ => false) opts = true ∧
    (convert_with_com openOk ((fun _ => false) :: sheetEnvs) exportOk opts).1
        = (openOk && exportOk) := by
  refine ⟨?_, ?_, ?_, ?_⟩
  · cases openOk <;> cases exportOk <;>
      simp [convert_with_com, List.length_map]
  · cases openOk <;> cases exportOk <;> simp [convert_with_com]
  · simp [configure_page_setup_absorbed, engine_page_setup_calls, run_page_setup]
  · cases openOk <;> cases exportOk <;> simp [convert_with_com]

/-! ## C6: zoom is disabled before fit-to-width is set -/

lemma fit_after_zoom_aux (env : Nat → Bool) (cs : List PSCall) (i : Nat)
    (h : ((run_page_setup env 0 (PSCall.zoomOff :: cs)).1).get? i
        = some (PSCall.fitPagesWide 1)) :
    ∃ j, j < i ∧ ((run_page_setup env 0 (PSCall.zoomOff :: cs)).1).get? j
        = some PSCall.zoomOff := by
  by_cases h0 : env 0
  · have e : run_page_setup env 0 (PSCall.zoomOff :: cs)
        = (PSCall.zoomOff :: (run_page_setup env 1 cs).1,
           (run_page_setup env 1 cs).2) := by
      simp [run_page_setup, h0]
    rw [e] at h ⊢
    cases i with
    | zero => simp at h
    | succ k => exact ⟨0, Nat.succ_pos k, rfl⟩
  · have e : run_page_setup env 0 (PSCall.zoomOff :: cs)
        = ([], some "PageSetup assignment raised") := by
      simp [run_page_setup, h0]
    rw [e] at h
    simp at h

/-- C6: in every execution of the per-sheet page configuration — both
the engine function `_configure_page_setup` and the strict converter
per-sheet block — whenever the fit-to-width constraint appears in the
trace of applied assignments, the zoom-disabling assignment appears
strictly earlier: fit-to-width is never set while automatic zoom is
still enabled. -/
theorem zoom_disabled_before_fit (env : Nat → Bool) (opts : ConversionOptions) (i : Nat) :
    ((configure_page_setup env opts).get? i = some (PSCall.fitPagesWide 1) →
      ∃ j, j < i ∧ (configure_page_setup env opts).get? j = some PSCall.zoomOff) ∧
    ((strict_page_setup_trace env).get? i = some (PSCall.fitPagesWide 1) →
      ∃ j, j < i ∧ (strict_page_setup_trace env).get? j = some PSCall.zoomOff) := by
  constructor
  · intro h
    exact fit_after_zoom_aux env _ i h
  · intro h
    exact fit_after_zoom_aux env _ i h

/-- C6 witness: under an all-success environment and default options,
entry 1 of both traces is the fit-to-width assignment, and zoom-off
indeed appears earlier. -/
theorem zoom_disabled_before_fit_witness :
    ((configure_page_setup (fun _ => true) {}).get? 1
        = some (PSCall.fitPagesWide 1) ∧
      ∃ j, j < 1 ∧ (configure_page_setup (fun _ => true) {}).get? j
          = some PSCall.zoomOff) ∧
    ((strict_page_setup_trace (fun _ => true)).get? 1
        = some (PSCall.fitPagesWide 1) ∧
      ∃ j, j < 1 ∧ (strict_page_setup_trace (fun _ => true)).get? j
          = some PSCall.zoomOff) :=
  ⟨⟨by decide, (zoom_disabled_before_fit (fun _ => true) {} 1).1 (by decide)⟩,
   ⟨by decide, (zoom_disabled_before_fit (fun _ => true) {} 1).2 (by decide)⟩⟩

/-! ## C4: bounding region with shape expansion -/

lemma foldl_min_le_init (init : Nat) (l : List Nat) : l.foldl min init ≤ init := by
  induction l generalizing init with
  | nil => exact le_refl _
  | cons x xs ih => exact le_trans (ih (min init x)) (min_le_left _ _)

lemma init_le_foldl_max (init : Nat) (l : List Nat) : init ≤ l.foldl max init := by
  induction l generalizing init with
  | nil => exact le_refl _
  | cons x xs ih => exact le_trans (le_max_left _ _) (ih (max init x))

/-- The tuple fold of `get_used_range_with_shapes` over the shapes is
the componentwise min/max fold over their anchor coordinates. -/
lemma grws_fold_components (shs : List ShapeAnchor) (a b c d : Nat) :
    shs.foldl grws_shape (a, b, c, d)
      = ((shs.map ShapeAnchor.tlRow).foldl min a,
         (shs.map ShapeAnchor.tlCol).foldl min b,
         (shs.map ShapeAnchor.brRow).foldl max c,
         (shs.map ShapeAnchor.brCol).foldl max d) := by
  induction shs generalizing a b c d with
  | nil => rfl
  | cons sh rest ih =>
      simp only [List.foldl_cons, List.map_cons, grws_shape]
      exact ih _ _ _ _

/-- C4 counterexample: a worksheet whose used range lies entirely below
row 1000000 (Excel allows rows up to 1048576): the sentinel
initialisation makes the computed region start at row 1000000, strictly
larger than the minimal rectangle containing the content, so the
computed region is not minimal for every worksheet. -/
theorem bounding_region_not_minimal_counterexample :
    get_used_range_with_shapes ⟨some ⟨1000001, 1, 1, 1⟩, []⟩
      = some ⟨1000000, 1, 1000001, 1⟩ ∧
    spec_bounding_region ⟨some ⟨1000001, 1, 1, 1⟩, []⟩
      = some ⟨1000001, 1, 1000001, 1⟩ ∧
    get_used_range_with_shapes ⟨some ⟨1000001, 1, 1, 1⟩, []⟩
      ≠ spec_bounding_region ⟨some ⟨1000001, 1, 1, 1⟩, []⟩ := by decide

/-- C4 amended: for every worksheet lying within the first 1000000 rows
and columns (the sentinel bound of the implementation; Excel itself
allows rows up to 1048576), the computed region is exactly the minimal
rectangle containing the cell used range and the anchor cells of every
floating shape — so a shape anchored outside the cell-used range
expands the region; the region is `none` exactly when the sheet has
neither a used range nor shapes, and a sheet with no region is skipped
by the export loop rather than fitted. -/
theorem bounding_region_minimal (ws : Worksheet) (hb : worksheet_in_bounds ws = true) :
    get_used_range_with_shapes ws = spec_bounding_region ws ∧
    (get_used_range_with_shapes ws = none ↔ ws.usedRange = none ∧ ws.shapes = []) ∧
    (∀ b : Bool, get_used_range_with_shapes ws = none →
        export_sheet_indices [(b, ws)] = []) := by
  have hb2 : used_range_ok ws.usedRange = true ∧ ws.shapes.all shape_ok = true := by
    simpa [worksheet_in_bounds, Bool.and_eq_true] using hb
  obtain ⟨hu, hs⟩ := hb2
  have hsall : ∀ sh ∈ ws.shapes, shape_ok sh = true := by
    simpa [List.all_eq_true] using hs
  have hmain : get_used_range_with_shapes ws = spec_bounding_region ws := by
    rcases husd : ws.usedRange with _ | u
    · rcases hshp : ws.shapes with _ | ⟨sh, rest⟩
      · simp [get_used_range_with_shapes, spec_bounding_region, husd, hshp, grws_init]
      · have hhd := hsall sh (by rw [hshp]; exact List.mem_cons_self _ _)
        simp only [shape_ok, Bool.and_eq_true, decide_eq_true_eq] at hhd
        obtain ⟨⟨⟨⟨⟨h1, h2⟩, h3⟩, h4⟩, h5⟩, h6⟩ := hhd
        have htl_le : sh.tlRow ≤ 1000000 := le_trans h2 h3
        have htc_le : sh.tlCol ≤ 1000000 := le_trans h5 h6
        have hbr1 : 1 ≤ sh.brRow := le_trans h1 h2
        have hbc1 : 1 ≤ sh.brCol := le_trans h4 h5
        simp only [get_used_range_with_shapes, spec_bounding_region, husd, hshp,
          grws_init, List.foldl_cons, List.map_cons, grws_shape]
        rw [grws_fold_components]
        simp only [ge_iff_le]
        rw [min_eq_right htl_le, min_eq_right htc_le,
            max_eq_right hbr1, max_eq_right hbc1]
        split
        · rfl
        · rename_i hcontra
          exact absurd
            ⟨le_trans (le_trans (foldl_min_le_init sh.tlRow _) h2)
                (init_le_foldl_max sh.brRow _),
             le_trans (le_trans (foldl_min_le_init sh.tlCol _) h5)
                (init_le_foldl_max sh.brCol _)⟩ hcontra
    · rw [husd] at hu
      simp only [used_range_ok, Bool.and_eq_true, decide_eq_true_eq] at hu
      obtain ⟨⟨⟨⟨⟨h1, h2⟩, h3⟩, h4⟩, h5⟩, h6⟩ := hu
      have hrow_le : u.row ≤ 1000000 := by omega
      have hcol_le : u.col ≤ 1000000 := by omega
      have hR1 : 1 ≤ u.row + u.rowsCount - 1 := by omega
      have hC1 : 1 ≤ u.col + u.colsCount - 1 := by omega
      have hRge : u.row ≤ u.row + u.rowsCount - 1 := by omega
      have hCge : u.col ≤ u.col + u.colsCount - 1 := by omega
      simp only [get_used_range_with_shapes, spec_bounding_region, husd,
        grws_init, grws_used]
      rw [min_eq_right hrow_le, min_eq_right hcol_le,
          max_eq_right hR1, max_eq_right hC1]
      rw [grws_fold_components]
      simp only [ge_iff_le]
      split
      · rfl
      · rename_i hcontra
        exact absurd
          ⟨le_trans (le_trans (foldl_min_le_init u.row _) hRge)
              (init_le_foldl_max (u.row + u.rowsCount - 1) _),
           le_trans (le_trans (foldl_min_le_init u.col _) hCge)
              (init_le_foldl_max (u.col + u.colsCount - 1) _)⟩ hcontra
  refine ⟨hmain, ?_, ?_⟩
  · rw [hmain]
    constructor
    · intro h
      rcases husd : ws.usedRange with _ | u
      · rcases hshp : ws.shapes with _ | ⟨sh, rest⟩
        · exact ⟨rfl, rfl⟩
        · simp [spec_bounding_region, husd, hshp] at h
      · simp [spec_bounding_region, husd] at h
    · rintro ⟨h1, h2⟩
      simp [spec_bounding_region, h1, h2]
  · intro b h
    simp [export_sheet_indices, List.enum, h]

/-- C4 witness: a worksheet within the sentinel bounds whose only shape
is anchored outside the cell-used range: the computed region equals the
minimal rectangle and expands to include the shape anchor. -/
theorem bounding_region_minimal_witness :
    worksheet_in_bounds ⟨some ⟨2, 2, 3, 4⟩, [⟨1, 5, 6, 7⟩]⟩ = true ∧
    (get_used_range_with_shapes ⟨some ⟨2, 2, 3, 4⟩, [⟨1, 5, 6, 7⟩]⟩
        = spec_bounding_region ⟨some ⟨2, 2, 3, 4⟩, [⟨1, 5, 6, 7⟩]⟩ ∧
      (get_used_range_with_shapes ⟨some ⟨2, 2, 3, 4⟩, [⟨1, 5, 6, 7⟩]⟩ = none ↔
        (⟨some ⟨2, 2, 3, 4⟩, [⟨1, 5, 6, 7⟩]⟩ : Worksheet).usedRange = none ∧
        (⟨some ⟨2, 2, 3, 4⟩, [⟨1, 5, 6, 7⟩]⟩ : Worksheet).shapes = []) ∧
      (∀ b : Bool,
        get_used_range_with_shapes ⟨some ⟨2, 2, 3, 4⟩, [⟨1, 5, 6, 7⟩]⟩ = none →
        export_sheet_indices [(b, ⟨some ⟨2, 2, 3, 4⟩, [⟨1, 5, 6, 7⟩]⟩)] = [])) :=
  ⟨by decide, bounding_region_minimal ⟨some ⟨2, 2, 3, 4⟩, [⟨1, 5, 6, 7⟩]⟩ (by decide)⟩

/-! ## C3: single-permit mutual exclusion -/

lemma mutexInv_init : MutexInv engineInit := by
  constructor
  · intro _
    exact ⟨rfl, rfl⟩
  · intro hc
    exact absurd hc.1 (by decide)

lemma mutexInv_step {s t : EngineState} (hI : MutexInv s) (h : EngineStep s t) :
    MutexInv t := by
  cases h <;>
    first
      | (rename_i p q
         revert hI
         cases p <;> cases q <;> decide)
      | (rename_i q
         revert hI
         cases q <;> decide)

/-- C3: in every reachable state of two interleaved `convert_to_pdf`
calls on one engine instance, at most one job holds the single
semaphore permit — in particular the two jobs are never both in the
automation (session-open) phase, which sits strictly inside the
permit-holding window (acquired before the session opens, released only
after close and cleanup). -/
theorem single_permit_mutual_exclusion (s : EngineState) (h : EngineReachable s) :
    ¬ (holdsPermit s.jobA = true ∧ holdsPermit s.jobB = true) ∧
    ¬ (inAutomationPhase s.jobA = true ∧ inAutomationPhase s.jobB = true) := by
  have hInv : MutexInv s := by
    induction h with
    | refl => exact mutexInv_init
    | tail _ hstep ih => exact mutexInv_step ih hstep
  have hauto : ∀ ph, inAutomationPhase ph = true → holdsPermit ph = true := by
    intro ph
    cases ph <;> decide
  exact ⟨hInv.2, fun hc => hInv.2 ⟨hauto _ hc.1, hauto _ hc.2⟩⟩

/-- C3 witness: the state in which job A has acquired the permit and
opened the automation session while job B is still idle is reachable,
and the mutual-exclusion property holds there. -/
theorem single_permit_mutual_exclusion_witness :
    EngineReachable ⟨false, JobPhase.sessionOpen, JobPhase.idle⟩ ∧
    (¬ (holdsPermit JobPhase.sessionOpen = true ∧ holdsPermit JobPhase.idle = true) ∧
      ¬ (inAutomationPhase JobPhase.sessionOpen = true ∧
          inAutomationPhase JobPhase.idle = true)) := by
  have hr : EngineReachable ⟨false, JobPhase.sessionOpen, JobPhase.idle⟩ :=
    Relation.ReflTransGen.tail
      (Relation.ReflTransGen.tail Relation.ReflTransGen.refl
        (EngineStep.acquireA JobPhase.idle))
      (EngineStep.openA false JobPhase.idle)
  exact ⟨hr, single_permit_mutual_exclusion _ hr⟩

end SopKatalog
